import Mathlib

/-!
Verification of the Huggle-Bundler bundling API (Python/FastAPI) against its
natural-language specification.  The relevant Python modules are shallowly
embedded as executable Lean definitions:

* `app/utils/signatures.py`   — bundle deduplication signatures (SHA-256);
* `app/services/pricing.py`   — size-tiered bundle pricing (exact decimal
  arithmetic modelled on `ℚ`);
* `app/repositories/bundles.py` — bundle creation against a relational store
  with a `(store_id, signature)` uniqueness constraint;
* `app/services/recommender.py` — the heuristic bundle recommender;
* `app/services/image_generator.py` — CLIP token estimation and prompt
  truncation;
* `app/services/mock_image_generator.py` — deterministic mock image URLs (MD5);
* `app/routers/images.py`     — the image proxy endpoint;
* `app/routers/bundles.py`    — the BundleOut serialization of persisted rows.

Machine-level hashing (hashlib.sha256 / hashlib.md5) is embedded concretely:
full SHA-256 and MD5 over byte lists (`List Nat`, each entry < 256), so digest
claims evaluate on concrete inputs.  Python strings are Lean `String`s; their
UTF-8 encodings are computed explicitly.
-/

set_option maxRecDepth 8192

namespace Huggle

/-! ## Bytes, hex and UTF-8 -/

/-- The sixteen lowercase hexadecimal digit characters, as Python's
`hexdigest` emits them. -/
def hexChars : List Char := "0123456789abcdef".data

/-- Lowercase hex digit for a nibble (out-of-range inputs fall back to `'f'`;
all call sites pass values < 16). -/
def hexDigit (n : Nat) : Char := hexChars.getD n 'f'

/-- Two lowercase hex characters of one byte. -/
def byteHex (b : Nat) : List Char := [hexDigit (b / 16 % 16), hexDigit (b % 16)]

/-- UTF-8 encoding of a single character, as a list of byte values — the
standard 1–4 byte encoding of the code point, mirroring Python's
`str.encode('utf-8')` per character. -/
def utf8EncodeCharNat (c : Char) : List Nat :=
  let n := c.toNat
  if n < 128 then [n]
  else if n < 2048 then [192 + n / 64, 128 + n % 64]
  else if n < 65536 then [224 + n / 4096, 128 + n / 64 % 64, 128 + n % 64]
  else [240 + n / 262144, 128 + n / 4096 % 64, 128 + n / 64 % 64, 128 + n % 64]

/-- UTF-8 encoding of a string as a list of byte values
(Python `s.encode('utf-8')`). -/
def utf8Bytes (s : String) : List Nat :=
  (s.data.map utf8EncodeCharNat).flatten

/-! ## SHA-256 (hashlib.sha256), embedded concretely over byte lists.
32-bit words are `Nat` values kept below `2^32` by explicit `% 4294967296`. -/

/-- `2^32`, the word modulus of SHA-256 and MD5. -/
def w32 : Nat := 4294967296

/-- Right rotation of a 32-bit word by `n` bits. -/
def rotr32 (n x : Nat) : Nat := (x / 2 ^ n + x % 2 ^ n * 2 ^ (32 - n)) % w32

/-- The 64 SHA-256 round constants (fractional parts of cube roots of the
first 64 primes), in decimal. -/
def sha256K : List Nat :=
  [1116352408, 1899447441, 3049323471, 3921009573, 961987163, 1508970993, 2453635748, 2870763221,
   3624381080, 310598401, 607225278, 1426881987, 1925078388, 2162078206, 2614888103, 3248222580,
   3835390401, 4022224774, 264347078, 604807628, 770255983, 1249150122, 1555081692, 1996064986,
   2554220882, 2821834349, 2952996808, 3210313671, 3336571891, 3584528711, 113926993, 338241895,
   666307205, 773529912, 1294757372, 1396182291, 1695183700, 1986661051, 2177026350, 2456956037,
   2730485921, 2820302411, 3259730800, 3345764771, 3516065817, 3600352804, 4094571909, 275423344,
   430227734, 506948616, 659060556, 883997877, 958139571, 1322822218, 1537002063, 1747873779,
   1955562222, 2024104815, 2227730452, 2361852424, 2428436474, 2756734187, 3204031479, 3329325298]

/-- The eight-word SHA-256 working state. -/
structure Sha256State where
  a : Nat
  b : Nat
  c : Nat
  d : Nat
  e : Nat
  f : Nat
  g : Nat
  h : Nat

/-- The SHA-256 initial hash value. -/
def sha256Init : Sha256State :=
  ⟨1779033703, 3144134277, 1013904242, 2773480762, 1359893119, 2600822924, 528734635, 1541459225⟩

/-- Big-endian 8-byte encoding of a length value (the trailing bit-length
field of the SHA-256 padding). -/
def beBytes8 (n : Nat) : List Nat :=
  [n / 72057594037927936 % 256, n / 281474976710656 % 256, n / 1099511627776 % 256,
   n / 4294967296 % 256, n / 16777216 % 256, n / 65536 % 256, n / 256 % 256, n % 256]

/-- SHA-256 message padding: `0x80`, zeros to 56 mod 64, then the bit length
big-endian. -/
def sha256Pad (msg : List Nat) : List Nat :=
  msg ++ [128] ++ List.replicate ((64 - (msg.length + 9) % 64) % 64) 0 ++ beBytes8 (8 * msg.length)

/-- Group bytes into big-endian 32-bit words. -/
def bytesToWordsBE : List Nat → List Nat
  | b0 :: b1 :: b2 :: b3 :: rest => (((b0 * 256 + b1) * 256 + b2) * 256 + b3) :: bytesToWordsBE rest
  | _ => []

/-- Group a word list into 16-word blocks (the padded message is always a
whole number of blocks). -/
def chunk16 : List Nat → List (List Nat)
  | a1 :: a2 :: a3 :: a4 :: a5 :: a6 :: a7 :: a8 :: a9 :: a10 :: a11 :: a12 :: a13 :: a14 :: a15 :: a16 :: rest =>
      [a1, a2, a3, a4, a5, a6, a7, a8, a9, a10, a11, a12, a13, a14, a15, a16] :: chunk16 rest
  | _ => []

/-- One message-schedule extension step: append
`w[i-16] + σ0(w[i-15]) + w[i-7] + σ1(w[i-2])`. -/
def sha256ExtendStep (ws : List Nat) : List Nat :=
  let i := ws.length
  let w15 := ws.getD (i - 15) 0
  let w2 := ws.getD (i - 2) 0
  let s0 := (rotr32 7 w15) ^^^ (rotr32 18 w15) ^^^ (w15 / 8)
  let s1 := (rotr32 17 w2) ^^^ (rotr32 19 w2) ^^^ (w2 / 1024)
  ws ++ [(ws.getD (i - 16) 0 + s0 + ws.getD (i - 7) 0 + s1) % w32]

/-- Extend a 16-word block to the 64-word message schedule (48 steps). -/
def sha256Extend (ws : List Nat) : Nat → List Nat
  | 0 => ws
  | k + 1 => sha256Extend (sha256ExtendStep ws) k

/-- One SHA-256 compression round with round constant `k` and schedule word
`w`. -/
def sha256Round (st : Sha256State) (kw : Nat × Nat) : Sha256State :=
  let s1 := (rotr32 6 st.e) ^^^ (rotr32 11 st.e) ^^^ (rotr32 25 st.e)
  let ch := (st.e &&& st.f) ^^^ ((w32 - 1 - st.e) &&& st.g)
  let t1 := (st.h + s1 + ch + kw.1 + kw.2) % w32
  let s0 := (rotr32 2 st.a) ^^^ (rotr32 13 st.a) ^^^ (rotr32 22 st.a)
  let maj := (st.a &&& st.b) ^^^ (st.a &&& st.c) ^^^ (st.b &&& st.c)
  let t2 := (s0 + maj) % w32
  ⟨(t1 + t2) % w32, st.a, st.b, st.c, (st.d + t1) % w32, st.e, st.f, st.g⟩

/-- Compress one 16-word block into the running state. -/
def sha256Compress (st : Sha256State) (block : List Nat) : Sha256State :=
  let ws := sha256Extend block 48
  let r := (sha256K.zip ws).foldl sha256Round st
  ⟨(st.a + r.a) % w32, (st.b + r.b) % w32, (st.c + r.c) % w32, (st.d + r.d) % w32,
   (st.e + r.e) % w32, (st.f + r.f) % w32, (st.g + r.g) % w32, (st.h + r.h) % w32⟩

/-- SHA-256 of a byte list, as the final eight-word state. -/
def sha256 (msg : List Nat) : Sha256State :=
  (chunk16 (bytesToWordsBE (sha256Pad msg))).foldl sha256Compress sha256Init

/-- Eight lowercase hex characters of a 32-bit word, big-endian. -/
def wordHexBE (x : Nat) : List Char :=
  byteHex (x / 16777216 % 256) ++ byteHex (x / 65536 % 256) ++ byteHex (x / 256 % 256) ++ byteHex (x % 256)

/-- The 64-character lowercase hex digest of a SHA-256 state. -/
def sha256StateHex (st : Sha256State) : String :=
  String.mk (wordHexBE st.a ++ wordHexBE st.b ++ wordHexBE st.c ++ wordHexBE st.d ++
             wordHexBE st.e ++ wordHexBE st.f ++ wordHexBE st.g ++ wordHexBE st.h)

/-- `hashlib.sha256(s.encode('utf-8')).hexdigest()`. -/
def sha256HexOfString (s : String) : String := sha256StateHex (sha256 (utf8Bytes s))

/-! ## MD5 (hashlib.md5), embedded concretely — used by the mock image
generator for its content hashes. -/

/-- Left rotation of a 32-bit word by `n` bits. -/
def rotl32 (n x : Nat) : Nat := (x % 2 ^ (32 - n) * 2 ^ n + x / 2 ^ (32 - n)) % w32

/-- The 64 MD5 sine-derived round constants `⌊|sin(i+1)|·2^32⌋`, in decimal. -/
def md5K : List Nat :=
  [3614090360, 3905402710, 606105819, 3250441966, 4118548399, 1200080426, 2821735955, 4249261313,
   1770035416, 2336552879, 4294925233, 2304563134, 1804603682, 4254626195, 2792965006, 1236535329,
   4129170786, 3225465664, 643717713, 3921069994, 3593408605, 38016083, 3634488961, 3889429448,
   568446438, 3275163606, 4107603335, 1163531501, 2850285829, 4243563512, 1735328473, 2368359562,
   4294588738, 2272392833, 1839030562, 4259657740, 2763975236, 1272893353, 4139469664, 3200236656,
   681279174, 3936430074, 3572445317, 76029189, 3654602809, 3873151461, 530742520, 3299628645,
   4096336452, 1126891415, 2878612391, 4237533241, 1700485571, 2399980690, 4293915773, 2240044497,
   1873313359, 4264355552, 2734768916, 1309151649, 4149444226, 3174756917, 718787259, 3951481745]

/-- The MD5 per-round left-rotation amounts. -/
def md5S : List Nat :=
  [7, 12, 17, 22, 7, 12, 17, 22, 7, 12, 17, 22, 7, 12, 17, 22,
   5, 9, 14, 20, 5, 9, 14, 20, 5, 9, 14, 20, 5, 9, 14, 20,
   4, 11, 16, 23, 4, 11, 16, 23, 4, 11, 16, 23, 4, 11, 16, 23,
   6, 10, 15, 21, 6, 10, 15, 21, 6, 10, 15, 21, 6, 10, 15, 21]

/-- The four-word MD5 working state. -/
structure Md5State where
  a : Nat
  b : Nat
  c : Nat
  d : Nat

/-- The MD5 initial state. -/
def md5Init : Md5State := ⟨1732584193, 4023233417, 2562383102, 271733878⟩

/-- Little-endian 8-byte encoding of the MD5 bit-length field. -/
def leBytes8 (n : Nat) : List Nat :=
  [n % 256, n / 256 % 256, n / 65536 % 256, n / 16777216 % 256,
   n / 4294967296 % 256, n / 1099511627776 % 256, n / 281474976710656 % 256,
   n / 72057594037927936 % 256]

/-- MD5 message padding: `0x80`, zeros to 56 mod 64, then the bit length
little-endian. -/
def md5Pad (msg : List Nat) : List Nat :=
  msg ++ [128] ++ List.replicate ((64 - (msg.length + 9) % 64) % 64) 0 ++ leBytes8 (8 * msg.length)

/-- Group bytes into little-endian 32-bit words. -/
def bytesToWordsLE : List Nat → List Nat
  | b0 :: b1 :: b2 :: b3 :: rest => (b0 + 256 * (b1 + 256 * (b2 + 256 * b3))) :: bytesToWordsLE rest
  | _ => []

/-- Bitwise complement of a 32-bit word. -/
def not32 (x : Nat) : Nat := w32 - 1 - x

/-- One MD5 round: round index `i`, current state, and the 16-word block. -/
def md5Round (block : List Nat) (st : Md5State) (i : Nat) : Md5State :=
  let fg : Nat × Nat :=
    if i < 16 then ((st.b &&& st.c) ||| (not32 st.b &&& st.d), i)
    else if i < 32 then ((st.d &&& st.b) ||| (not32 st.d &&& st.c), (5 * i + 1) % 16)
    else if i < 48 then (st.b ^^^ st.c ^^^ st.d, (3 * i + 5) % 16)
    else (st.c ^^^ (st.b ||| not32 st.d), (7 * i) % 16)
  let sum := (st.a + fg.1 + md5K.getD i 0 + block.getD fg.2 0) % w32
  ⟨st.d, (st.b + rotl32 (md5S.getD i 0) sum) % w32, st.b, st.c⟩

/-- Compress one 16-word block into the running MD5 state. -/
def md5Compress (st : Md5State) (block : List Nat) : Md5State :=
  let r := (List.range 64).foldl (md5Round block) st
  ⟨(st.a + r.a) % w32, (st.b + r.b) % w32, (st.c + r.c) % w32, (st.d + r.d) % w32⟩

/-- MD5 of a byte list, as the final four-word state. -/
def md5 (msg : List Nat) : Md5State :=
  (chunk16 (bytesToWordsLE (md5Pad msg))).foldl md5Compress md5Init

/-- Eight lowercase hex characters of a 32-bit word, little-endian byte
order (as MD5 digests are emitted). -/
def wordHexLE (x : Nat) : List Char :=
  byteHex (x % 256) ++ byteHex (x / 256 % 256) ++ byteHex (x / 65536 % 256) ++ byteHex (x / 16777216 % 256)

/-- The 32-character lowercase hex digest of an MD5 state. -/
def md5StateHex (st : Md5State) : String :=
  String.mk (wordHexLE st.a ++ wordHexLE st.b ++ wordHexLE st.c ++ wordHexLE st.d)

/-- `hashlib.md5(s.encode('utf-8')).hexdigest()` (Python `str.encode()`
defaults to UTF-8). -/
def md5HexOfString (s : String) : String := md5StateHex (md5 (utf8Bytes s))

/-! ## Python string helpers -/

/-- Drop characters satisfying `p` from both ends of a character list
(Python `str.strip` semantics over a character class). -/
def stripBothIf (p : Char → Bool) (l : List Char) : List Char :=
  ((l.dropWhile p).reverse.dropWhile p).reverse

/-- Python `s.strip()` (no arguments): strip surrounding whitespace. -/
def pyStripWS (s : String) : String := String.mk (stripBothIf Char.isWhitespace s.data)

/-- Python `s.strip(chars)`: strip the given characters from both ends. -/
def pyStripChars (cs : List Char) (s : String) : String :=
  String.mk (stripBothIf (fun c => cs.contains c) s.data)

/-- Python `s.rstrip(chars)`: strip the given characters from the right end. -/
def pyRstripChars (cs : List Char) (s : String) : String :=
  String.mk ((s.data.reverse.dropWhile (fun c => cs.contains c)).reverse)

/-- Python `needle in haystack` on strings: substring containment. -/
def strContainsSub (haystack needle : String) : Bool :=
  haystack.data.tails.any (fun t => needle.data.isPrefixOf t)

/-- Python `sorted` on a list of strings: the unique `≤`-sorted permutation,
comparing strings lexicographically by code point (Lean's `String` linear
order, which coincides with Python's). -/
def sortStrings (l : List String) : List String := List.insertionSort (· ≤ ·) l

/-! ## app/utils/signatures.py -/

/-- A product dictionary as seen by `compute_bundle_signature`: only its
`'id'` entry matters; `none` models a missing `'id'` key or an explicit
`None` value (both make `product.get('id')` return `None`). -/
structure SigProduct where
  id : Option String
deriving DecidableEq

/-- `compute_bundle_signature(products)` from `app/utils/signatures.py`:
keeps every product id that is not `None` (coercion `str(product_id)` is the
identity on strings), fails on an empty list or when no id survives, then
hashes the sorted ids joined with `'|'`.  Python's `raise ValueError(msg)`
is modelled as `Except.error msg`. -/
def compute_bundle_signature (products : List SigProduct) : Except String String :=
  if products = [] then .error "Cannot compute signature for empty product list"
  else
    let product_ids := products.filterMap SigProduct.id
    if product_ids = [] then .error "No valid product IDs found in product list"
    else .ok (sha256HexOfString (String.intercalate "|" (sortStrings product_ids)))

/-- `compute_signature_from_id_list(product_ids)` from
`app/utils/signatures.py`: drops `None` entries and entries that are blank
after `str.strip()`, fails on an empty list or when nothing survives, then
hashes the sorted ids joined with `'|'`. -/
def compute_signature_from_id_list (product_ids : List (Option String)) : Except String String :=
  if product_ids = [] then .error "Cannot compute signature for empty product ID list"
  else
    let valid_ids := product_ids.filterMap (fun pid =>
      match pid with
      | none => none
      | some s => if pyStripWS s = "" then none else some s)
    if valid_ids = [] then .error "No valid product IDs provided"
    else .ok (sha256HexOfString (String.intercalate "|" (sortStrings valid_ids)))

/-! ## app/schemas/bundle.py -/

/-- The `ProductIn` wire schema.  Prices are modelled as exact rationals
(`decimal.Decimal` arithmetic on decimal string representations is exact);
timestamps as `Nat` instants. -/
structure ProductIn where
  id : String
  name : String
  product_type : Option String
  expires_on : Option Nat
  stock : Int
  tags : List String
  price : ℚ
  original_price : Option ℚ
deriving DecidableEq

/-- The `BundleCreate` wire schema (the fields the embedded operations
read). -/
structure BundleCreate where
  store_id : String
  name : String
  description : Option String
  products : List ProductIn
  images : List String
  stock : Int
deriving DecidableEq

/-! ## app/services/pricing.py -/

/-- `Decimal.quantize(Decimal('0.01'), rounding=ROUND_HALF_UP)` applied to
`q * 100`: round half away from zero to an integer. -/
def roundHalfUpInt (q : ℚ) : ℤ := if 0 ≤ q then ⌊q + 1 / 2⌋ else -⌊-q + 1 / 2⌋

/-- Round a rational to 2 decimal places, halves away from zero
(`ROUND_HALF_UP`). -/
def roundHalfUp2 (q : ℚ) : ℚ := (roundHalfUpInt (q * 100) : ℚ) / 100

/-- `BundlePricingCalculator.DEFAULT_DISCOUNTS` — the dict lookup
`product_count in self.discount_rates` / `self.discount_rates[product_count]`
for the default table. -/
def defaultDiscountLookup (n : Nat) : Option ℚ :=
  if n = 2 then some 5 else if n = 3 then some 10 else if n = 4 then some 15
  else if n = 5 then some 20 else none

/-- `BundlePricingCalculator.calculate_total_price`. -/
def calculate_total_price (products : List ProductIn) : ℚ :=
  (products.map ProductIn.price).sum

/-- `BundlePricingCalculator.calculate_bundle_discount_percentage` with the
default discount table: 0 below 2 products, the exact-count entry for 2–5,
and the 5-item rate for more than 5. -/
def calculate_bundle_discount_percentage (products : List ProductIn) : ℚ :=
  let product_count := products.length
  if product_count < 2 then 0
  else
    match defaultDiscountLookup product_count with
    | some d => d
    | none => if 5 ≤ product_count then (defaultDiscountLookup 5).getD 0 else 0

/-- `BundlePricingCalculator.calculate_discounted_price`. -/
def calculate_discounted_price (total_price discount_percentage : ℚ) : ℚ :=
  if discount_percentage ≤ 0 then total_price
  else roundHalfUp2 (total_price * (1 - discount_percentage / 100))

/-- `BundlePricingCalculator.calculate_savings_amount`. -/
def calculate_savings_amount (total_price discounted_price : ℚ) : ℚ :=
  roundHalfUp2 (total_price - discounted_price)

/-- The pricing dictionary returned by `calculate_bundle_pricing`
(`None` values are `none`). -/
structure PricingInfo where
  total_price : ℚ
  discount_percentage : Option ℚ
  discounted_price : Option ℚ
  savings_amount : Option ℚ
deriving DecidableEq

/-- `BundlePricingCalculator.calculate_bundle_pricing` (default discounts).
The Python `try`/`except` cannot fire here: the embedded arithmetic is
total. -/
def calculate_bundle_pricing (products : List ProductIn) : PricingInfo :=
  if products = [] then ⟨0, none, none, none⟩
  else
    let total_price := calculate_total_price products
    let discount_percentage := calculate_bundle_discount_percentage products
    if 0 < discount_percentage then
      let discounted_price := calculate_discounted_price total_price discount_percentage
      ⟨total_price, some discount_percentage, some discounted_price,
       some (calculate_savings_amount total_price discounted_price)⟩
    else ⟨total_price, none, none, none⟩

/-- A `ProductIn` carrying only a price (the other fields are irrelevant to
pricing). -/
def pIn (price : ℚ) : ProductIn := ⟨"p", "Product", none, none, 0, [], price, none⟩

/-! ## app/repositories/bundles.py — pricing-field mapping -/

/-- The `(price, original_price, total_cost)` triple that `create_bundle`
passes to the `Bundle` row constructor.  Mirrors the Python exactly:
`raw_pricing.get('discounted_price', raw_pricing.get('total_price', 0.0))`
returns the *present* `'discounted_price'` value even when that value is
`None`, so the written `total_price` fallback is dead code; with an empty
product list `pricing_info` stays `{}` and every `.get(…, 0.0)` yields
`0.0`. -/
def createBundlePricingFields (products : List ProductIn) : Option ℚ × Option ℚ × Option ℚ :=
  if products = [] then (some 0, some 0, some 0)
  else
    let raw := calculate_bundle_pricing products
    (raw.discounted_price, some raw.total_price, some raw.total_price)

/-! ## app/models/bundle.py and app/repositories/bundles.py -/

/-- A persisted `bundles` row (the columns the embedded operations read).
The three pricing columns are declared `Numeric(10,2) NOT NULL` in
`app/models/bundle.py`; they are `Option ℚ` here because `create_bundle`
can hand the constructor a `None` (see `createBundlePricingFields`), which
the store then rejects.  Timestamp columns (`expires_on`, `created_at`, …)
play no role in any claim and are omitted. -/
structure BundleRow where
  id : String
  store_id : String
  signature : String
  name : String
  description : Option String
  products : List ProductIn
  images : List String
  stock : Int
  price : Option ℚ
  original_price : Option ℚ
  total_cost : Option ℚ
deriving DecidableEq

/-- The committed state of the `bundles` table. -/
structure DBState where
  rows : List BundleRow
deriving DecidableEq

/-- The driver message for a `(store_id, signature)` uniqueness violation;
`create_bundle` looks for the constraint name `uq_bundle_store_signature`
(declared in `app/models/bundle.py`) inside `str(e.orig)`. -/
def uniqueViolationMsg : String :=
  "duplicate key value violates unique constraint uq_bundle_store_signature"

/-- The driver message for a NOT NULL violation on a pricing column — an
integrity error that is *not* the uniqueness constraint. -/
def notNullViolationMsg : String :=
  "null value in column price violates not-null constraint"

/-- `db.add(bundle); db.commit()`: the insert succeeds unless it violates
the `uq_bundle_store_signature` unique constraint or a NOT NULL pricing
column, in which case the commit raises `IntegrityError` carrying the
driver message. -/
def insertCommit (db : DBState) (row : BundleRow) : Except String DBState :=
  if db.rows.any (fun r => r.store_id == row.store_id && r.signature == row.signature) then
    .error uniqueViolationMsg
  else if row.price.isNone || row.original_price.isNone || row.total_cost.isNone then
    .error notNullViolationMsg
  else .ok ⟨db.rows ++ [row]⟩

/-- The errors `create_bundle` can surface: `ValueError` for invalid input,
`ValueError` for the translated duplicate conflict, and a re-raised
`IntegrityError` for anything else. -/
inductive CreateErr where
  | invalidInput (msg : String)
  | conflict (msg : String)
  | integrityError (msg : String)
deriving DecidableEq

/-- `p.model_dump(mode="json")` as seen by `compute_bundle_signature`: the
dict always carries the (required, string) `id` field. -/
def toSigProduct (p : ProductIn) : SigProduct := ⟨some p.id⟩

/-- `create_bundle(db, data)` from `app/repositories/bundles.py`.  The
generated `uuid4` row id is the `newId` parameter (the only
nondeterministic input); `data.store_id or ""` is the identity on strings
(`""` is mapped to `""`).  On an `IntegrityError` whose driver message
mentions `uq_bundle_store_signature` the session is rolled back and a
Conflict `ValueError` raised; other integrity errors are re-raised
unchanged, also after rollback.  The returned `DBState` is the post-call
committed state: unchanged on every error path. -/
def create_bundle (newId : String) (db : DBState) (data : BundleCreate) :
    Except CreateErr BundleRow × DBState :=
  match compute_bundle_signature (data.products.map toSigProduct) with
  | .error e => (.error (.invalidInput ("Cannot create bundle: " ++ e)), db)
  | .ok signature =>
    let fields := createBundlePricingFields data.products
    let row : BundleRow :=
      { id := newId, store_id := data.store_id, signature := signature,
        name := data.name, description := data.description, products := data.products,
        images := data.images, stock := data.stock,
        price := fields.1, original_price := fields.2.1, total_cost := fields.2.2 }
    match insertCommit db row with
    | .ok db2 => (.ok row, db2)
    | .error e =>
      if strContainsSub e "uq_bundle_store_signature" then
        (.error (.conflict ("A bundle with the same products already exists in store " ++
          data.store_id)), db)
      else (.error (.integrityError e), db)

/-! ## app/routers/bundles.py — BundleOut serialization -/

/-- The `BundleOut` response as built by the bundle-returning handlers. -/
structure BundleOutM where
  id : String
  name : String
  description : Option String
  products : List ProductIn
  images : List String
  stock : Int
  price : Option ℚ
  original_price : Option ℚ
  total_cost : Option ℚ
deriving DecidableEq

/-- The conversion `float(x) if x else None` used for each pricing column:
Python truthiness maps both `None` and an exactly-zero value to `None`. -/
def pyTruthyFloat (x : Option ℚ) : Option ℚ :=
  match x with
  | none => none
  | some v => if v = 0 then none else some v

/-- The `BundleOut(...)` construction shared verbatim by `save_bundle`,
`get_bundle_by_id`, `list_bundles`, `recommend_ai_and_save` and
`recommend_ai_save_and_generate_images` in `app/routers/bundles.py`. -/
def bundleRowToOut (b : BundleRow) : BundleOutM :=
  { id := b.id, name := b.name, description := b.description, products := b.products,
    images := b.images, stock := b.stock, price := pyTruthyFloat b.price,
    original_price := pyTruthyFloat b.original_price,
    total_cost := pyTruthyFloat b.total_cost }

/-! ## app/routers/images.py -/

/-- Outcome of `requests.get(local_url, timeout=30)`: a response with a
status code and body, or a raised `requests.RequestException` (connection
error or timeout). -/
inductive UpstreamResult where
  | ok (status : Nat) (body : String)
  | requestError
deriving DecidableEq

/-- What the endpoint sends back: an image response with its headers, or an
`HTTPException` with a status and detail. -/
inductive ProxyResponse where
  | image (body cacheControl contentDisposition : String)
  | httpError (status : Nat) (detail : String)
deriving DecidableEq

/-- Python `s.endswith(suffix)`. -/
def pyEndsWith (s suffix : String) : Bool := suffix.data.isSuffixOf s.data

/-- `serve_generated_image(filename)` from `app/routers/images.py`,
parameterized by the upstream image server (`upstream url` is the outcome of
the one `requests.get`).  Returns the response together with the list of
upstream URLs actually fetched.  The filename validation raises
`HTTPException(400, "Invalid filename")` *inside* the `try`, where the
blanket `except Exception` catches it and replaces it with
`HTTPException(500, "Internal server error")`; `raise_for_status()` on a
4xx/5xx upstream status raises an `HTTPError`, a `RequestException`, which
the first handler maps to 404. -/
def serve_generated_image (upstream : String → UpstreamResult) (baseUrl filename : String) :
    ProxyResponse × List String :=
  if !pyEndsWith filename ".png" || filename.data.contains '/' || strContainsSub filename ".." then
    (.httpError 500 "Internal server error", [])
  else
    let local_url := baseUrl ++ "/images/" ++ filename
    match upstream local_url with
    | .requestError => (.httpError 404 "Image not found", [local_url])
    | .ok status body =>
      if 400 ≤ status then (.httpError 404 "Image not found", [local_url])
      else (.image body "public, max-age=3600" ("inline; filename=" ++ filename), [local_url])

/-- A concrete healthy upstream, for evaluating the endpoint at closed
inputs. -/
def upstreamStub : String → UpstreamResult := fun _ => .ok 200 "PNGBYTES"

/-! ## app/services/mock_image_generator.py -/

/-- The sixteen uppercase hexadecimal digits (percent-encoding uses
uppercase). -/
def hexDigitUpper (n : Nat) : Char := "0123456789ABCDEF".data.getD n 'F'

/-- One byte under `urllib.parse.quote` (default `safe='/'`): keep
unreserved characters `A–Z a–z 0–9 _ . - ~` and `/`, percent-encode the
rest. -/
def pyQuoteByte (b : Nat) : List Char :=
  if (65 ≤ b ∧ b ≤ 90) ∨ (97 ≤ b ∧ b ≤ 122) ∨ (48 ≤ b ∧ b ≤ 57) ∨
      b = 95 ∨ b = 46 ∨ b = 45 ∨ b = 126 ∨ b = 47 then
    [Char.ofNat b]
  else ['%', hexDigitUpper (b / 16 % 16), hexDigitUpper (b % 16)]

/-- `urllib.parse.quote(s)`: percent-encode the UTF-8 bytes. -/
def pyQuote (s : String) : String := String.mk (((utf8Bytes s).map pyQuoteByte).flatten)

/-- The content string hashed by `generate_mock_bundle_image`:
`"{name}_{len}"`, plus `"_" + "_".join(sorted(names))` when there are
products, plus `"_" + description[:50]` when the description is truthy. -/
def mockContentSimple (bundle_name : String) (products : List ProductIn)
    (description : Option String) : String :=
  let c := bundle_name ++ "_" ++ toString products.length
  let c := if products ≠ [] then
      c ++ "_" ++ String.intercalate "_" (sortStrings (products.map ProductIn.name))
    else c
  match description with
  | some d => if d ≠ "" then c ++ "_" ++ d.take 50 else c
  | none => c

/-- `generate_mock_bundle_image(bundle_name, products, description)`:
placeholder-service URL embedding the bundle text and the first 8 hex
characters of the MD5 content hash.  The joined separator is the two-character
sequence backslash-`n`, exactly as in the source. -/
def generate_mock_bundle_image (bundle_name : String) (products : List ProductIn)
    (description : Option String) : String :=
  let content_hash := (md5HexOfString (mockContentSimple bundle_name products description)).take 8
  let text_lines := [bundle_name, toString products.length ++ " Products", "ID: " ++ content_hash]
  let text_lines := text_lines ++
    (if products ≠ [] ∧ products.length ≤ 3 then
      (products.take 3).map (fun p => p.name.take 20) else [])
  let text := pyQuote (String.intercalate "\\n" text_lines)
  "https://via.placeholder.com/800x600/f8f9fa/2c3e50?text=" ++ text

/-- The content string hashed by `generate_realistic_mock_image` — note the
description is *not* part of it. -/
def mockContentRealistic (bundle_name : String) (products : List ProductIn) : String :=
  let c := bundle_name ++ "_" ++ toString products.length
  if products ≠ [] then
    c ++ "_" ++ String.intercalate "_" (sortStrings (products.map ProductIn.name))
  else c

/-- `generate_realistic_mock_image(bundle_name, products, description)` —
the variant the orchestrator uses.  Its `description` parameter is accepted
but never read. -/
def generate_realistic_mock_image (bundle_name : String) (products : List ProductIn)
    (description : Option String) : String :=
  let content_hash := md5HexOfString (mockContentRealistic bundle_name products)
  "https://replicate.delivery/pbxt/mock-" ++ content_hash.take 16 ++ "/" ++ content_hash ++ ".webp"

/-- A `ProductIn` carrying only a display name (the other fields are
irrelevant to the mock image generator). -/
def pNamed (nm : String) : ProductIn := ⟨"p1", nm, none, none, 0, [], 0, none⟩

/-! ## app/services/image_generator.py — token estimation and truncation -/

/-- Splitting a character list at every whitespace character (producing
empty pieces between adjacent separators). -/
def splitWsAux : List Char → List Char → List (List Char)
  | [], acc => [acc.reverse]
  | c :: rest, acc =>
    if c.isWhitespace then acc.reverse :: splitWsAux rest []
    else splitWsAux rest (c :: acc)

/-- Python `text.split()` with no argument: split on whitespace runs,
dropping empty pieces. -/
def pySplit (s : String) : List String :=
  ((splitWsAux s.data []).map String.mk).filter (· ≠ "")

/-- Python `" ".join(words)`. -/
def joinWords (ws : List String) : String := String.intercalate " " ws

/-- The punctuation class stripped by `estimate_clip_tokens`
(`word.strip('.,;:!?"()[]')`). -/
def estimateStripSet : List Char := ['.', ',', ';', ':', '!', '?', '"', '(', ')', '[', ']']

/-- Token estimate of one word: 1 token up to 6 characters of the cleaned
word, 2 up to 10, 3 beyond, plus 1 if punctuation was stripped. -/
def wordTokens (word : String) : Nat :=
  let clean_word := pyStripChars estimateStripSet word
  (if clean_word.length ≤ 3 then 1
   else if clean_word.length ≤ 6 then 1
   else if clean_word.length ≤ 10 then 2
   else 3) +
  (if word ≠ clean_word then 1 else 0)

/-- `estimate_clip_tokens(text)`: sum the per-word estimates over
`text.split()`. -/
def estimate_clip_tokens (text : String) : Nat :=
  ((pySplit text).map wordTokens).sum

/-- The `while estimated_tokens > max_tokens and len(words) > 5` loop of
`truncate_prompt_for_clip`: drop the last word and re-estimate.  (On entry
`words = prompt.split()`, and the loop's first estimate —
`estimate_clip_tokens(prompt)` in the source — equals
`estimate_clip_tokens(" ".join(words))` computed here: both are the sum of
the per-word estimates of the same word list.) -/
def truncLoop (max_tokens : Nat) (words : List String) : List String :=
  if h : max_tokens < estimate_clip_tokens (joinWords words) ∧ 5 < words.length then
    truncLoop max_tokens words.dropLast
  else words
termination_by words.length
decreasing_by
  simp only [List.length_dropLast]
  omega

/-- `truncate_prompt_for_clip(prompt, max_tokens=73)`: return the prompt
unchanged when the estimate fits, else drop words from the end (never below
5 words), strip trailing `.,;:` and append a period. -/
def truncate_prompt_for_clip (prompt : String) (max_tokens : Nat) : String :=
  if estimate_clip_tokens prompt ≤ max_tokens then prompt
  else
    let words := truncLoop max_tokens (pySplit prompt)
    pyRstripChars ['.', ',', ';', ':'] (joinWords words) ++ "."

/-! ## app/utils/text.py and app/services/recommender.py -/

/-- `oxford_join(items)` from `app/utils/text.py`. -/
def oxford_join (items : List String) : String :=
  match items with
  | [] => ""
  | [a] => a
  | [a, b] => a ++ " and " ++ b
  | _ => String.intercalate ", " items.dropLast ++ ", and " ++ items.getLastD ""

/-- `datetime.max` as an instant (timestamps are modelled as `Nat`
instants; only their order matters to the recommender). -/
def dateMax : Nat := 999999999999999

/-- Python `min(xs)` for non-empty `xs`, and the recommender's `if chosen
else 0` guard for the empty case. -/
def listMinInt : List Int → Int
  | [] => 0
  | x :: xs => xs.foldl min x

/-- The fallback bucket for a product without a usable `product_type`:
first tag if any, else `"Misc"`. -/
def bucketFallback (p : ProductIn) : String :=
  match p.tags with
  | t :: _ => t
  | [] => "Misc"

/-- `p.product_type or (p.tags[0] if p.tags else "Misc")` — Python `or`
also skips an empty-string `product_type`. -/
def bucketGroup (p : ProductIn) : String :=
  match p.product_type with
  | some t => if t = "" then bucketFallback p else t
  | none => bucketFallback p

/-- Append a product to its bucket in an insertion-ordered association list
(`defaultdict(list)` preserves first-occurrence key order). -/
def addBucket : List (String × List ProductIn) → String → ProductIn →
    List (String × List ProductIn)
  | [], g, p => [(g, [p])]
  | (g', ps) :: rest, g, p =>
    if g' = g then (g', ps ++ [p]) :: rest else (g', ps) :: addBucket rest g p

/-- Group products into buckets keyed by `bucketGroup`. -/
def buildBuckets (products : List ProductIn) : List (String × List ProductIn) :=
  products.foldl (fun bs p => addBucket bs (bucketGroup p) p) []

/-- The recommender's item sort key comparison: lexicographic on
`(expires_on or datetime.max, stock)`. -/
def itemKeyLe (a b : ProductIn) : Prop :=
  a.expires_on.getD dateMax < b.expires_on.getD dateMax ∨
  (a.expires_on.getD dateMax = b.expires_on.getD dateMax ∧ a.stock ≤ b.stock)

instance itemKeyLe.instDecidable : DecidableRel itemKeyLe := fun a b => by
  unfold itemKeyLe
  infer_instance

/-- `sorted(items, key=lambda x: (x.expires_on or datetime.max, x.stock))`
— a stable sort, as Python's. -/
def sortItems (items : List ProductIn) : List ProductIn := List.insertionSort itemKeyLe items

/-- The earliest-expiry key of a bucket:
`kv[1][0].expires_on or datetime.max` (buckets are never empty). -/
def bucketEarliest (items : List ProductIn) : Nat :=
  match items with
  | p :: _ => p.expires_on.getD dateMax
  | [] => dateMax

/-- `sorted(buckets.items(), key=…)`: rank buckets by their earliest-expiry
item, stably. -/
def rankBuckets (bs : List (String × List ProductIn)) : List (String × List ProductIn) :=
  List.insertionSort (fun a b => bucketEarliest a.2 ≤ bucketEarliest b.2) bs

/-- Python slicing `l[:k]` for an `int` bound `k`: from the front for
`k ≥ 0`, all but the last `|k|` for negative `k`. -/
def pyTake (k : ℤ) (l : List α) : List α :=
  if 0 ≤ k then l.take k.toNat else l.take ((l.length : ℤ) + k).toNat

/-- The main candidate loop of `recommend_bundles`: for each ranked bucket,
choose the first 3 (or 2) items, skip buckets yielding fewer than 2, apply
the optional AI text enhancement (`maybe_enhance_bundle_text`, a parameter
here: it touches only name/description), skip product sets that already
exist (`bundle_exists_for_products`, also a parameter), and break once
`num_bundles` is reached. -/
def recommendMainLoop (enhance : String → List String → Int → Option (String × String))
    (existsForProducts : List String → Bool) (store_id : String) (num_bundles : ℤ) :
    List (String × List ProductIn) → List BundleCreate → List BundleCreate
  | [], bundles => bundles
  | (group_name, items) :: rest, bundles =>
    let chosen := if 3 ≤ items.length then items.take 3
      else if 2 ≤ items.length then items.take 2 else items.take 1
    if chosen.length < 2 then
      recommendMainLoop enhance existsForProducts store_id num_bundles rest bundles
    else
      let stock := listMinInt (chosen.map ProductIn.stock)
      let name := group_name ++ " Essentials Pack"
      let product_names := chosen.map ProductIn.name
      let description := "Includes " ++ oxford_join product_names ++ "."
      let nd := match enhance name product_names stock with
        | some (n, d) => (n, d)
        | none => (name, description)
      let bundles2 := if existsForProducts (chosen.map ProductIn.id) then bundles
        else bundles ++ [⟨store_id, nd.1, some nd.2, chosen, [], stock⟩]
      if num_bundles ≤ (bundles2.length : ℤ) then bundles2
      else recommendMainLoop enhance existsForProducts store_id num_bundles rest bundles2

/-- The top-up loop of `recommend_bundles`: walk the expiry-sorted pool in
adjacent pairs while fewer than `num_bundles` candidates exist, skipping
pairs already bundled. -/
def recommendTopUp (existsForProducts : List String → Bool) (store_id : String)
    (num_bundles : ℤ) : List ProductIn → List BundleCreate → List BundleCreate
  | p1 :: p2 :: rest, bundles =>
    if (bundles.length : ℤ) < num_bundles then
      if existsForProducts [p1.id, p2.id] then
        recommendTopUp existsForProducts store_id num_bundles rest bundles
      else
        recommendTopUp existsForProducts store_id num_bundles rest (bundles ++
          [⟨store_id, "Quick Saver Pack",
            some ("Includes " ++ oxford_join [p1.name, p2.name] ++ "."), [p1, p2], [],
            listMinInt [p1.stock, p2.stock]⟩])
    else bundles
  | _, bundles => bundles

/-- `recommend_bundles(db, store_id, num_bundles)` from
`app/services/recommender.py`, over the already-normalized product list
(the raw-row parse is inventory-client I/O), with the database-backed
existence check and the optional AI enhancement as parameters. -/
def recommend_bundles (enhance : String → List String → Int → Option (String × String))
    (existsForProducts : List String → Bool) (store_id : String)
    (products : List ProductIn) (num_bundles : ℤ) : List BundleCreate :=
  if products = [] then []
  else
    let buckets := (buildBuckets products).map (fun gi => (gi.1, sortItems gi.2))
    let ranked := rankBuckets buckets
    let bundles := recommendMainLoop enhance existsForProducts store_id num_bundles
      (pyTake (max (num_bundles * 2) num_bundles) ranked) []
    if (bundles.length : ℤ) < num_bundles then
      recommendTopUp existsForProducts store_id num_bundles
        (sortItems ((buckets.map Prod.snd).flatten)) bundles
    else bundles

end Huggle

namespace Huggle

theorem sha256_empty_vector :
    sha256HexOfString "" = "e3b0c44298fc1c149afbf4c8996fb92427ae41e4649b934ca495991b7852b855" := by
  decide

theorem sha256_abc_vector :
    sha256HexOfString "abc" = "ba7816bf8f01cfea414140de5dae2223b00361a396177a9cb410ff61f20015ad" := by
  decide

theorem md5_empty_vector :
    md5HexOfString "" = "d41d8cd98f00b204e9800998ecf8427e" := by
  decide

theorem md5_abc_vector :
    md5HexOfString "abc" = "900150983cd24fb0d6963f7d28e17f72" := by
  decide

/-! ### Digest shape lemmas -/

theorem hexDigit_mem_of_lt : ∀ n < 16, hexDigit n ∈ hexChars := by decide

theorem byteHex_mem (b : Nat) : ∀ c ∈ byteHex b, c ∈ hexChars := by
  intro c hc
  simp only [byteHex, List.mem_cons, List.not_mem_nil, or_false] at hc
  rcases hc with h | h <;> subst h <;>
    exact hexDigit_mem_of_lt _ (Nat.mod_lt _ (by omega))

theorem wordHexBE_mem (x : Nat) : ∀ c ∈ wordHexBE x, c ∈ hexChars := by
  intro c hc
  simp only [wordHexBE, List.mem_append] at hc
  rcases hc with ((h | h) | h) | h <;> exact byteHex_mem _ _ h

theorem sha256StateHex_length (st : Sha256State) : (sha256StateHex st).length = 64 := by
  cases st
  simp [sha256StateHex, wordHexBE, byteHex, String.length]

theorem sha256StateHex_mem (st : Sha256State) :
    ∀ c ∈ (sha256StateHex st).data, c ∈ hexChars := by
  cases st
  intro c hc
  simp only [sha256StateHex, String.data, List.mem_append] at hc
  rcases hc with ((((((h | h) | h) | h) | h) | h) | h) | h <;> exact wordHexBE_mem _ _ h

/-! ### Sorting lemmas -/

theorem sortStrings_perm_eq {l₁ l₂ : List String} (h : l₁.Perm l₂) :
    sortStrings l₁ = sortStrings l₂ :=
  List.eq_of_perm_of_sorted
    ((List.perm_insertionSort _ l₁).trans (h.trans (List.perm_insertionSort _ l₂).symm))
    (List.sorted_insertionSort _ l₁) (List.sorted_insertionSort _ l₂)

/-! ### Claim C1 -/

/-- C1: for every non-empty list of products whose ids are present,
`compute_bundle_signature` is order-independent and deterministic — any
permutation of the product list yields the identical digest — and the digest
is the lowercase hex SHA-256 of the UTF-8 encoding of the lexicographically
sorted ids joined with `'|'`, a 64-character string of lowercase hex
characters. -/
theorem C1_signature_order_independent (ps ps' : List SigProduct)
    (hne : ps ≠ []) (hids : ∀ p ∈ ps, p.id.isSome) (hperm : ps.Perm ps') :
    compute_bundle_signature ps = compute_bundle_signature ps' ∧
    compute_bundle_signature ps =
      .ok (sha256HexOfString (String.intercalate "|" (sortStrings (ps.filterMap SigProduct.id)))) ∧
    ∀ d, compute_bundle_signature ps = .ok d →
      d.length = 64 ∧ ∀ c ∈ d.data, c ∈ hexChars := by
  have hne' : ps' ≠ [] := by
    intro h
    exact hne (List.eq_nil_of_length_eq_zero (hperm.length_eq.trans (h ▸ rfl)))
  obtain ⟨p, rest, rfl⟩ : ∃ p rest, ps = p :: rest := by
    cases ps with
    | nil => exact absurd rfl hne
    | cons p rest => exact ⟨p, rest, rfl⟩
  obtain ⟨x, hx⟩ := Option.isSome_iff_exists.mp (hids p (List.mem_cons_self p rest))
  have hidsne : (p :: rest).filterMap SigProduct.id ≠ [] := by
    intro h
    have : x ∈ (p :: rest).filterMap SigProduct.id :=
      List.mem_filterMap.mpr ⟨p, List.mem_cons_self p rest, hx⟩
    simp [h] at this
  have hpermids : ((p :: rest).filterMap SigProduct.id).Perm (ps'.filterMap SigProduct.id) :=
    hperm.filterMap SigProduct.id
  have hidsne' : ps'.filterMap SigProduct.id ≠ [] := by
    intro h
    exact hidsne (List.eq_nil_of_length_eq_zero (hpermids.length_eq.trans (h ▸ rfl)))
  have hsorteq := sortStrings_perm_eq hpermids
  refine ⟨?_, ?_, ?_⟩
  · simp only [compute_bundle_signature, if_neg (List.cons_ne_nil p rest), if_neg hne',
      if_neg hidsne, if_neg hidsne', hsorteq]
  · simp only [compute_bundle_signature, if_neg (List.cons_ne_nil p rest), if_neg hidsne]
  · intro d hd
    simp only [compute_bundle_signature, if_neg (List.cons_ne_nil p rest), if_neg hidsne,
      Except.ok.injEq] at hd
    subst hd
    exact ⟨sha256StateHex_length _, sha256StateHex_mem _⟩

theorem C1_witness :
    compute_bundle_signature [⟨some "p3"⟩, ⟨some "p1"⟩, ⟨some "p2"⟩] =
      compute_bundle_signature [⟨some "p1"⟩, ⟨some "p2"⟩, ⟨some "p3"⟩] ∧
    compute_bundle_signature [⟨some "p3"⟩, ⟨some "p1"⟩, ⟨some "p2"⟩] =
      .ok (sha256HexOfString (String.intercalate "|"
        (sortStrings ([SigProduct.mk (some "p3"), ⟨some "p1"⟩, ⟨some "p2"⟩].filterMap SigProduct.id)))) ∧
    ∀ d, compute_bundle_signature [⟨some "p3"⟩, ⟨some "p1"⟩, ⟨some "p2"⟩] = .ok d →
      d.length = 64 ∧ ∀ c ∈ d.data, c ∈ hexChars :=
  C1_signature_order_independent _ _ (by decide) (by decide) (by decide)

/-! ### Claim C5 -/

/-- C5 (code bug): the repository's own test
`test_compute_signature_no_valid_ids` and the spec expect
`compute_bundle_signature` to fail with InvalidInput when every entry has an
absent or blank id — but the code only drops `None` ids and keeps blank
strings, so the test's input `[{"name": "Product"}, {"id": None}, {"id": ""}]`
successfully hashes the single blank id (the SHA-256 digest of the empty
string) instead of raising.  `compute_signature_from_id_list`, by contrast,
does strip and drop blank ids and fails as the claim states. -/
theorem C5_blank_ids_not_dropped :
    compute_bundle_signature [⟨none⟩, ⟨none⟩, ⟨some ""⟩] =
      .ok "e3b0c44298fc1c149afbf4c8996fb92427ae41e4649b934ca495991b7852b855" ∧
    compute_bundle_signature [] = .error "Cannot compute signature for empty product list" ∧
    compute_signature_from_id_list [] = .error "Cannot compute signature for empty product ID list" ∧
    compute_signature_from_id_list [none, some "", some "   "] = .error "No valid product IDs provided" := by
  refine ⟨by rfl, by rfl, by rfl, by rfl⟩

/-! ### Claim C4 -/

/-- C4: for every non-empty product list the default discount is 0% below 2
products, 5% for 2, 10% for 3, 15% for 4 and 20% for 5 or more; when the
discount is positive the discounted price is
`round_half_up(total × (1 − d/100), 2)` and the savings are
`round_half_up(total − discounted, 2)`, in exact decimal arithmetic — e.g.
prices [10, 20] give total 30, price 28.50 and savings 1.50, and five
products at 10 give total 50, price 40 and savings 10. -/
theorem C4_pricing_tiers (products : List ProductIn) (hne : products ≠ []) :
    (calculate_bundle_pricing products).total_price = calculate_total_price products ∧
    (products.length < 2 → calculate_bundle_discount_percentage products = 0) ∧
    (products.length = 2 → calculate_bundle_discount_percentage products = 5) ∧
    (products.length = 3 → calculate_bundle_discount_percentage products = 10) ∧
    (products.length = 4 → calculate_bundle_discount_percentage products = 15) ∧
    (5 ≤ products.length → calculate_bundle_discount_percentage products = 20) ∧
    (0 < calculate_bundle_discount_percentage products →
      (calculate_bundle_pricing products).discounted_price =
        some (roundHalfUp2 (calculate_total_price products *
          (1 - calculate_bundle_discount_percentage products / 100))) ∧
      (calculate_bundle_pricing products).savings_amount =
        some (roundHalfUp2 (calculate_total_price products -
          roundHalfUp2 (calculate_total_price products *
            (1 - calculate_bundle_discount_percentage products / 100))))) ∧
    calculate_bundle_pricing [pIn 10, pIn 20] = ⟨30, some 5, some (57 / 2), some (3 / 2)⟩ ∧
    calculate_bundle_pricing [pIn 10, pIn 10, pIn 10, pIn 10, pIn 10] =
      ⟨50, some 20, some 40, some 10⟩ := by
  refine ⟨?_, ?_, ?_, ?_, ?_, ?_, ?_, ?_, ?_⟩
  case refine_8 =>
    norm_num [calculate_bundle_pricing, calculate_total_price,
      calculate_bundle_discount_percentage, defaultDiscountLookup, calculate_discounted_price,
      calculate_savings_amount, roundHalfUp2, roundHalfUpInt, pIn, List.cons_ne_nil]
  case refine_9 =>
    norm_num [calculate_bundle_pricing, calculate_total_price,
      calculate_bundle_discount_percentage, defaultDiscountLookup, calculate_discounted_price,
      calculate_savings_amount, roundHalfUp2, roundHalfUpInt, pIn, List.cons_ne_nil]
  · simp only [calculate_bundle_pricing, if_neg hne]
    split <;> rfl
  · intro h
    simp [calculate_bundle_discount_percentage, h]
  · intro h
    simp [calculate_bundle_discount_percentage, defaultDiscountLookup, h]
  · intro h
    simp [calculate_bundle_discount_percentage, defaultDiscountLookup, h]
  · intro h
    simp [calculate_bundle_discount_percentage, defaultDiscountLookup, h]
  · intro h
    have h2 : ¬ products.length < 2 := by omega
    by_cases h5 : products.length = 5
    · simp [calculate_bundle_discount_percentage, defaultDiscountLookup, h5]
    · have hn2 : products.length ≠ 2 := by omega
      have hn3 : products.length ≠ 3 := by omega
      have hn4 : products.length ≠ 4 := by omega
      simp [calculate_bundle_discount_percentage, defaultDiscountLookup, h2, hn2, hn3, hn4, h5, h]
  · intro hpos
    have hle : ¬ calculate_bundle_discount_percentage products ≤ 0 := not_le.mpr hpos
    constructor
    · simp only [calculate_bundle_pricing, if_neg hne, if_pos hpos,
        calculate_discounted_price, if_neg hle]
    · simp only [calculate_bundle_pricing, if_neg hne, if_pos hpos,
        calculate_savings_amount, calculate_discounted_price, if_neg hle]

theorem C4_witness :
    (calculate_bundle_pricing [pIn 10, pIn 20]).total_price =
      calculate_total_price [pIn 10, pIn 20] ∧
    ([pIn 10, pIn 20].length < 2 → calculate_bundle_discount_percentage [pIn 10, pIn 20] = 0) ∧
    ([pIn 10, pIn 20].length = 2 → calculate_bundle_discount_percentage [pIn 10, pIn 20] = 5) ∧
    ([pIn 10, pIn 20].length = 3 → calculate_bundle_discount_percentage [pIn 10, pIn 20] = 10) ∧
    ([pIn 10, pIn 20].length = 4 → calculate_bundle_discount_percentage [pIn 10, pIn 20] = 15) ∧
    (5 ≤ [pIn 10, pIn 20].length → calculate_bundle_discount_percentage [pIn 10, pIn 20] = 20) ∧
    (0 < calculate_bundle_discount_percentage [pIn 10, pIn 20] →
      (calculate_bundle_pricing [pIn 10, pIn 20]).discounted_price =
        some (roundHalfUp2 (calculate_total_price [pIn 10, pIn 20] *
          (1 - calculate_bundle_discount_percentage [pIn 10, pIn 20] / 100))) ∧
      (calculate_bundle_pricing [pIn 10, pIn 20]).savings_amount =
        some (roundHalfUp2 (calculate_total_price [pIn 10, pIn 20] -
          roundHalfUp2 (calculate_total_price [pIn 10, pIn 20] *
            (1 - calculate_bundle_discount_percentage [pIn 10, pIn 20] / 100))))) ∧
    calculate_bundle_pricing [pIn 10, pIn 20] = ⟨30, some 5, some (57 / 2), some (3 / 2)⟩ ∧
    calculate_bundle_pricing [pIn 10, pIn 10, pIn 10, pIn 10, pIn 10] =
      ⟨50, some 20, some 40, some 10⟩ :=
  C4_pricing_tiers [pIn 10, pIn 20] (by decide)

/-! ### Claim C2 -/

/-- C2 (code bug): `create_bundle` is meant to map the calculator's
`discounted_price` — or `total_price` when no discount applies — to the
persisted `price`, so a 1-product bundle would get `price == original_price`.
In the code, `raw_pricing.get('discounted_price', …)` returns the present
`None` value for a 1-product bundle (dict `.get` never applies its default to
a present key), so `price` becomes `None` (violating the NOT NULL `price`
column) rather than the 10.00 original price; for 2 or more products the
claimed mapping does hold. -/
theorem C2_one_product_price_is_none :
    createBundlePricingFields [pIn 10] = (none, some 10, some 10) ∧
    (none : Option ℚ) ≠ some (10 : ℚ) ∧
    createBundlePricingFields [pIn 10, pIn 20] = (some (57 / 2), some 30, some 30) := by
  refine ⟨?_, by decide, ?_⟩ <;>
    norm_num [createBundlePricingFields, calculate_bundle_pricing, calculate_total_price,
      calculate_bundle_discount_percentage, defaultDiscountLookup, calculate_discounted_price,
      calculate_savings_amount, roundHalfUp2, roundHalfUpInt, pIn, List.cons_ne_nil]

/-! ### Claim C3 -/

theorem uniqueMsg_contains :
    strContainsSub uniqueViolationMsg "uq_bundle_store_signature" = true := by decide

theorem notNullMsg_not_contains :
    strContainsSub notNullViolationMsg "uq_bundle_store_signature" = false := by decide

/-- C3: when the insert violates the `(store_id, signature)` uniqueness
constraint, `create_bundle` fails with a Conflict whose message is
`"A bundle with the same products already exists in store {store_id}"` and
the transaction is rolled back before the error is raised — the committed
state is unchanged, no row persisted; any other integrity violation (here a
NOT NULL pricing column) is propagated unchanged, also leaving the state
untouched. -/
theorem C3_conflict_on_duplicate (newId : String) (db : DBState) (data : BundleCreate)
    (s : String)
    (hsig : compute_bundle_signature (data.products.map toSigProduct) = .ok s) :
    ((∃ r ∈ db.rows, r.store_id = data.store_id ∧ r.signature = s) →
      create_bundle newId db data =
        (.error (.conflict ("A bundle with the same products already exists in store " ++
          data.store_id)), db)) ∧
    ((¬ ∃ r ∈ db.rows, r.store_id = data.store_id ∧ r.signature = s) →
      (createBundlePricingFields data.products).1 = none →
      create_bundle newId db data = (.error (.integrityError notNullViolationMsg), db)) := by
  constructor
  · rintro ⟨r, hr, h1, h2⟩
    have hany : db.rows.any
        (fun q => q.store_id == data.store_id && q.signature == s) = true :=
      List.any_eq_true.mpr ⟨r, hr, by simp [h1, h2]⟩
    simp only [create_bundle, hsig, insertCommit, hany, if_true, uniqueMsg_contains, if_pos]
  · intro hno hnone
    have hany : db.rows.any
        (fun q => q.store_id == data.store_id && q.signature == s) = false := by
      rw [List.any_eq_false]
      intro r hr hcontra
      simp only [Bool.and_eq_true, beq_iff_eq] at hcontra
      exact hno ⟨r, hr, hcontra.1, hcontra.2⟩
    simp only [create_bundle, hsig, insertCommit, hany, Bool.false_eq_true, if_false, hnone,
      Option.isNone_none, Bool.true_or, if_true, notNullMsg_not_contains]

theorem C3_witness :
    ((∃ r ∈ (DBState.mk [⟨"b1", "store123",
        "f64551fcd6f07823cb87971cfb91446425da18286b3ab1ef935e0cbd7a69f68a", "Old", none, [],
        [], 0, some 1, some 1, some 1⟩]).rows,
      r.store_id = (BundleCreate.mk "store123" "New" none
        [⟨"p1", "P", none, none, 0, [], 10, none⟩] [] 0).store_id ∧
      r.signature = "f64551fcd6f07823cb87971cfb91446425da18286b3ab1ef935e0cbd7a69f68a") →
      create_bundle "b2"
        (DBState.mk [⟨"b1", "store123",
          "f64551fcd6f07823cb87971cfb91446425da18286b3ab1ef935e0cbd7a69f68a", "Old", none, [],
          [], 0, some 1, some 1, some 1⟩])
        (BundleCreate.mk "store123" "New" none
          [⟨"p1", "P", none, none, 0, [], 10, none⟩] [] 0) =
        (.error (.conflict ("A bundle with the same products already exists in store " ++
          (BundleCreate.mk "store123" "New" none
            [⟨"p1", "P", none, none, 0, [], 10, none⟩] [] 0).store_id)),
         DBState.mk [⟨"b1", "store123",
          "f64551fcd6f07823cb87971cfb91446425da18286b3ab1ef935e0cbd7a69f68a", "Old", none, [],
          [], 0, some 1, some 1, some 1⟩])) ∧
    ((¬ ∃ r ∈ (DBState.mk [⟨"b1", "store123",
        "f64551fcd6f07823cb87971cfb91446425da18286b3ab1ef935e0cbd7a69f68a", "Old", none, [],
        [], 0, some 1, some 1, some 1⟩]).rows,
      r.store_id = (BundleCreate.mk "store123" "New" none
        [⟨"p1", "P", none, none, 0, [], 10, none⟩] [] 0).store_id ∧
      r.signature = "f64551fcd6f07823cb87971cfb91446425da18286b3ab1ef935e0cbd7a69f68a") →
      (createBundlePricingFields (BundleCreate.mk "store123" "New" none
        [⟨"p1", "P", none, none, 0, [], 10, none⟩] [] 0).products).1 = none →
      create_bundle "b2"
        (DBState.mk [⟨"b1", "store123",
          "f64551fcd6f07823cb87971cfb91446425da18286b3ab1ef935e0cbd7a69f68a", "Old", none, [],
          [], 0, some 1, some 1, some 1⟩])
        (BundleCreate.mk "store123" "New" none
          [⟨"p1", "P", none, none, 0, [], 10, none⟩] [] 0) =
        (.error (.integrityError notNullViolationMsg),
         DBState.mk [⟨"b1", "store123",
          "f64551fcd6f07823cb87971cfb91446425da18286b3ab1ef935e0cbd7a69f68a", "Old", none, [],
          [], 0, some 1, some 1, some 1⟩])) :=
  C3_conflict_on_duplicate "b2" _ _
    "f64551fcd6f07823cb87971cfb91446425da18286b3ab1ef935e0cbd7a69f68a" (by rfl)

/-! ### Claim C10 -/

/-- C10: in the shared `BundleOut` construction of the bundle-returning
handlers, a persisted `price`, `original_price` or `total_cost` equal to
exactly 0 is serialized as absent (`None`) rather than as `0.00`, because
`float(x) if x else None` tests truthiness instead of `is None`. -/
theorem C10_zero_serialized_as_none (b : BundleRow) :
    (b.price = some 0 → (bundleRowToOut b).price = none) ∧
    (b.original_price = some 0 → (bundleRowToOut b).original_price = none) ∧
    (b.total_cost = some 0 → (bundleRowToOut b).total_cost = none) := by
  refine ⟨?_, ?_, ?_⟩ <;> intro h <;> simp [bundleRowToOut, pyTruthyFloat, h]

theorem C10_witness :
    ((BundleRow.mk "b" "s" "sig" "N" none [] [] 0 (some 0) (some 5) (some 0)).price = some 0 →
      (bundleRowToOut (BundleRow.mk "b" "s" "sig" "N" none [] [] 0
        (some 0) (some 5) (some 0))).price = none) ∧
    ((BundleRow.mk "b" "s" "sig" "N" none [] [] 0 (some 0) (some 5) (some 0)).original_price =
        some 0 →
      (bundleRowToOut (BundleRow.mk "b" "s" "sig" "N" none [] [] 0
        (some 0) (some 5) (some 0))).original_price = none) ∧
    ((BundleRow.mk "b" "s" "sig" "N" none [] [] 0 (some 0) (some 5) (some 0)).total_cost =
        some 0 →
      (bundleRowToOut (BundleRow.mk "b" "s" "sig" "N" none [] [] 0
        (some 0) (some 5) (some 0))).total_cost = none) :=
  C10_zero_serialized_as_none (BundleRow.mk "b" "s" "sig" "N" none [] [] 0
    (some 0) (some 5) (some 0))

/-! ### Claim C9 -/

/-- C9 (code bug): a filename failing validation (not ending in `.png`, or
containing `/` or `..`) is rejected *before any upstream fetch* (no URL is
fetched), but with status 500 "Internal server error", not the claimed
BadRequest 400 — the deliberately raised `HTTPException(400, "Invalid
filename")` is swallowed by the handler's own blanket `except Exception`.  A
filename passing validation triggers exactly one upstream fetch. -/
theorem C9_invalid_filename_yields_500 :
    serve_generated_image upstreamStub "https://image.huggle.tech" "../../etc/passwd.png" =
      (.httpError 500 "Internal server error", []) ∧
    serve_generated_image upstreamStub "https://image.huggle.tech" "sub/dir.png" =
      (.httpError 500 "Internal server error", []) ∧
    serve_generated_image upstreamStub "https://image.huggle.tech" "abc123.png" =
      (.image "PNGBYTES" "public, max-age=3600" "inline; filename=abc123.png",
       ["https://image.huggle.tech/images/abc123.png"]) ∧
    (ProxyResponse.httpError 500 "Internal server error" ≠
      ProxyResponse.httpError 400 "Invalid filename") := by
  refine ⟨by decide, by decide, by decide, by decide⟩

/-! ### Claim C8 -/

theorem string_data_append (s t : String) : (s ++ t).data = s.data ++ t.data := rfl

/-- C8 counterexample: the claim says changing only the description changes
the mock generator's URL, but `generate_realistic_mock_image` (the variant
the orchestrator uses) never reads its description argument — two calls
differing only in the description return the identical URL. -/
theorem C8_counterexample :
    generate_realistic_mock_image "Holiday Pack" [pNamed "Candle"] (some "A red gift box") =
      generate_realistic_mock_image "Holiday Pack" [pNamed "Candle"] (some "A blue gift box") :=
  rfl

/-- C8 (amended): the mock image generator is deterministic — the realistic
variant's URL depends only on the bundle name and the *set* of product names
(any permutation of the products yields the identical URL) — and changing
the bundle name always changes the hashed content string; but the URL is
*insensitive* to the description: entirely so for the realistic variant, and
beyond the first 50 description characters for the simple variant. -/
theorem C8_mock_image_determinism (n₁ n₂ : String) (ps ps' : List ProductIn)
    (d d' : Option String) (d₁ d₂ : String)
    (hperm : ps.Perm ps') (hn : n₁ ≠ n₂) (h₁ : d₁ ≠ "") (h₂ : d₂ ≠ "")
    (h50 : d₁.take 50 = d₂.take 50) :
    generate_realistic_mock_image n₁ ps d = generate_realistic_mock_image n₁ ps' d ∧
    generate_realistic_mock_image n₁ ps d = generate_realistic_mock_image n₁ ps d' ∧
    mockContentRealistic n₁ ps ≠ mockContentRealistic n₂ ps ∧
    generate_mock_bundle_image n₁ ps (some d₁) = generate_mock_bundle_image n₁ ps (some d₂) := by
  have hlen := hperm.length_eq
  refine ⟨?_, rfl, ?_, ?_⟩
  · have hc : mockContentRealistic n₁ ps = mockContentRealistic n₁ ps' := by
      by_cases hps : ps = []
      · subst hps
        have hps' : ps' = [] := List.length_eq_zero.mp (by simpa using hlen.symm)
        subst hps'
        rfl
      · have hps' : ps' ≠ [] := by
          intro h
          rw [h] at hlen
          exact hps (List.length_eq_zero.mp hlen)
        simp only [mockContentRealistic]
        rw [if_pos hps, if_pos hps', hlen, sortStrings_perm_eq (hperm.map ProductIn.name)]
    simp only [generate_realistic_mock_image, hc]
  · intro heq
    apply hn
    have hd := congrArg String.data heq
    by_cases hps : ps = []
    · subst hps
      simp only [mockContentRealistic, if_neg (by simp : ¬ ([] : List ProductIn) ≠ []),
        string_data_append, List.append_assoc] at hd
      exact String.ext (List.append_cancel_right hd)
    · simp only [mockContentRealistic] at hd
      rw [if_pos hps, if_pos hps] at hd
      simp only [string_data_append, List.append_assoc] at hd
      exact String.ext (List.append_cancel_right hd)
  · have hc : mockContentSimple n₁ ps (some d₁) = mockContentSimple n₁ ps (some d₂) := by
      simp only [mockContentSimple]
      rw [if_pos h₁, if_pos h₂, h50]
    simp only [generate_mock_bundle_image, hc]

theorem C8_witness :
    generate_realistic_mock_image "Pack A" [pNamed "Tea", pNamed "Mug"] (some "Warm gifts") =
      generate_realistic_mock_image "Pack A" [pNamed "Mug", pNamed "Tea"] (some "Warm gifts") ∧
    generate_realistic_mock_image "Pack A" [pNamed "Tea", pNamed "Mug"] (some "Warm gifts") =
      generate_realistic_mock_image "Pack A" [pNamed "Tea", pNamed "Mug"] none ∧
    mockContentRealistic "Pack A" [pNamed "Tea", pNamed "Mug"] ≠
      mockContentRealistic "Pack B" [pNamed "Tea", pNamed "Mug"] ∧
    generate_mock_bundle_image "Pack A" [pNamed "Tea", pNamed "Mug"]
        (some "0123456789012345678901234567890123456789012345678-SUFFIX-ONE") =
      generate_mock_bundle_image "Pack A" [pNamed "Tea", pNamed "Mug"]
        (some "0123456789012345678901234567890123456789012345678-SUFFIX-TWO") :=
  C8_mock_image_determinism "Pack A" "Pack B" [pNamed "Tea", pNamed "Mug"]
    [pNamed "Mug", pNamed "Tea"] (some "Warm gifts") none
    "0123456789012345678901234567890123456789012345678-SUFFIX-ONE"
    "0123456789012345678901234567890123456789012345678-SUFFIX-TWO"
    (by decide) (by decide) (by decide) (by decide) (by decide)

/-! ### Claim C7 -/

theorem truncLoop_spec (maxT : Nat) (ws : List String) :
    (∃ k, truncLoop maxT ws = ws.take k) ∧
    min 5 ws.length ≤ (truncLoop maxT ws).length ∧
    (estimate_clip_tokens (joinWords (truncLoop maxT ws)) ≤ maxT ∨
      (truncLoop maxT ws).length ≤ 5) := by
  induction ws using truncLoop.induct maxT with
  | case1 ws h ih =>
    rw [truncLoop, dif_pos h]
    obtain ⟨⟨k, hk⟩, hmin, hexit⟩ := ih
    refine ⟨⟨min k (ws.length - 1), ?_⟩, ?_, hexit⟩
    · rw [hk, List.dropLast_eq_take, List.take_take]
    · rw [List.length_dropLast] at hmin
      omega
  | case2 ws h =>
    rw [truncLoop, dif_neg h]
    push_neg at h
    refine ⟨⟨ws.length, (List.take_length ws).symm⟩, by omega, by omega⟩

/-- C7: for a prompt whose token estimate exceeds the ceiling,
`truncate_prompt_for_clip` drops words only from the end (the kept words
are a prefix of the prompt's words), never goes below 5 words, stops as
soon as the estimate is at or under the ceiling (or the 5-word floor is
hit), and returns the kept words joined, stripped of trailing punctuation,
with a terminal period. -/
theorem C7_truncate_prompt (prompt : String) (max_tokens : Nat)
    (h : max_tokens < estimate_clip_tokens prompt) :
    truncate_prompt_for_clip prompt max_tokens =
      pyRstripChars ['.', ',', ';', ':']
        (joinWords (truncLoop max_tokens (pySplit prompt))) ++ "." ∧
    (∃ k, truncLoop max_tokens (pySplit prompt) = (pySplit prompt).take k) ∧
    min 5 (pySplit prompt).length ≤ (truncLoop max_tokens (pySplit prompt)).length ∧
    (estimate_clip_tokens (joinWords (truncLoop max_tokens (pySplit prompt))) ≤ max_tokens ∨
      (truncLoop max_tokens (pySplit prompt)).length ≤ 5) ∧
    (truncate_prompt_for_clip prompt max_tokens).data.getLast? = some '.' := by
  have heq : truncate_prompt_for_clip prompt max_tokens =
      pyRstripChars ['.', ',', ';', ':']
        (joinWords (truncLoop max_tokens (pySplit prompt))) ++ "." := by
    simp only [truncate_prompt_for_clip, if_neg (not_le.mpr h)]
  obtain ⟨hpre, hmin, hexit⟩ := truncLoop_spec max_tokens (pySplit prompt)
  refine ⟨heq, hpre, hmin, hexit, ?_⟩
  rw [heq, string_data_append]
  rw [show ("." : String).data = ['.'] from rfl]
  exact List.getLast?_concat _

theorem C7_witness :
    truncate_prompt_for_clip "alpha beta gamma delta epsilon zeta eta" 5 =
      pyRstripChars ['.', ',', ';', ':']
        (joinWords (truncLoop 5 (pySplit "alpha beta gamma delta epsilon zeta eta"))) ++ "." ∧
    (∃ k, truncLoop 5 (pySplit "alpha beta gamma delta epsilon zeta eta") =
      (pySplit "alpha beta gamma delta epsilon zeta eta").take k) ∧
    min 5 (pySplit "alpha beta gamma delta epsilon zeta eta").length ≤
      (truncLoop 5 (pySplit "alpha beta gamma delta epsilon zeta eta")).length ∧
    (estimate_clip_tokens
        (joinWords (truncLoop 5 (pySplit "alpha beta gamma delta epsilon zeta eta"))) ≤ 5 ∨
      (truncLoop 5 (pySplit "alpha beta gamma delta epsilon zeta eta")).length ≤ 5) ∧
    (truncate_prompt_for_clip "alpha beta gamma delta epsilon zeta eta" 5).data.getLast? =
      some '.' :=
  C7_truncate_prompt "alpha beta gamma delta epsilon zeta eta" 5 (by decide)

/-! ### Claim C6 -/

theorem recommendMainLoop_length_le
    (enhance : String → List String → Int → Option (String × String))
    (ex : List String → Bool) (sid : String) (n : ℤ)
    (groups : List (String × List ProductIn)) :
    ∀ acc, (acc.length : ℤ) < n →
      ((recommendMainLoop enhance ex sid n groups acc).length : ℤ) ≤ n := by
  induction groups with
  | nil =>
    intro acc h
    simp only [recommendMainLoop]
    exact le_of_lt h
  | cons gi rest ih =>
    intro acc h
    obtain ⟨g, items⟩ := gi
    simp only [recommendMainLoop]
    split_ifs <;>
      first
      | exact ih acc h
      | exact le_of_lt h
      | (simp only [List.length_append, List.length_cons, List.length_nil] at *
         push_cast at *
         omega)
      | (apply ih
         simp only [List.length_append, List.length_cons, List.length_nil] at *
         push_cast at *
         omega)

theorem recommendTopUp_length_le (ex : List String → Bool) (sid : String) (n : ℤ) :
    ∀ pool acc, (acc.length : ℤ) ≤ n →
      ((recommendTopUp ex sid n pool acc).length : ℤ) ≤ n
  | [], _, h => h
  | [_], _, h => h
  | p1 :: p2 :: rest, acc, h => by
    simp only [recommendTopUp]
    split_ifs with h1 h2
    · exact recommendTopUp_length_le ex sid n rest acc h
    · apply recommendTopUp_length_le ex sid n rest
      simp only [List.length_append, List.length_cons, List.length_nil]
      push_cast
      omega
    · exact h

theorem recommendMainLoop_min2
    (enhance : String → List String → Int → Option (String × String))
    (ex : List String → Bool) (sid : String) (n : ℤ)
    (groups : List (String × List ProductIn)) :
    ∀ acc, (∀ b ∈ acc, 2 ≤ b.products.length) →
      ∀ b ∈ recommendMainLoop enhance ex sid n groups acc, 2 ≤ b.products.length := by
  induction groups with
  | nil =>
    intro acc hacc
    simpa only [recommendMainLoop] using hacc
  | cons gi rest ih =>
    intro acc hacc
    obtain ⟨g, items⟩ := gi
    simp only [recommendMainLoop]
    split_ifs <;>
      first
      | exact ih acc hacc
      | exact hacc
      | (intro b hb
         rcases List.mem_append.mp hb with hb' | hb'
         · exact hacc b hb'
         · simp only [List.mem_singleton] at hb'
           subst hb'
           simp only []
           omega)
      | (apply ih
         intro b hb
         rcases List.mem_append.mp hb with hb' | hb'
         · exact hacc b hb'
         · simp only [List.mem_singleton] at hb'
           subst hb'
           simp only []
           omega)

theorem recommendTopUp_min2 (ex : List String → Bool) (sid : String) (n : ℤ) :
    ∀ pool acc, (∀ b ∈ acc, 2 ≤ b.products.length) →
      ∀ b ∈ recommendTopUp ex sid n pool acc, 2 ≤ b.products.length
  | [], _, hacc => hacc
  | [_], _, hacc => hacc
  | p1 :: p2 :: rest, acc, hacc => by
    simp only [recommendTopUp]
    split_ifs with h1 h2
    · exact recommendTopUp_min2 ex sid n rest acc hacc
    · apply recommendTopUp_min2 ex sid n rest
      intro b hb
      rcases List.mem_append.mp hb with hb' | hb'
      · exact hacc b hb'
      · simp only [List.mem_singleton] at hb'
        subst hb'
        simp only [List.length_cons, List.length_nil]
        omega
    · exact hacc

/-- C6 counterexample: the claim quantifies over *every* `num_bundles`
(`RecommendRequest.num_bundles` is an unconstrained `int`), but for
`num_bundles = -1` with a catalog of two buckets the main loop still emits
one candidate before its `len(bundles) >= num_bundles` break fires, so the
result has 1 > -1 candidates — "at most `num_bundles`" fails for negative
requests. -/
theorem C6_counterexample :
    (recommend_bundles (fun _ _ _ => none) (fun _ => false) "s"
      [⟨"p1", "A1", some "TypeA", some 1, 5, [], 10, none⟩,
       ⟨"p2", "A2", some "TypeA", some 2, 5, [], 10, none⟩,
       ⟨"p3", "B1", some "TypeB", some 3, 5, [], 10, none⟩] (-1)).length = 1 ∧
    ¬ (((recommend_bundles (fun _ _ _ => none) (fun _ => false) "s"
      [⟨"p1", "A1", some "TypeA", some 1, 5, [], 10, none⟩,
       ⟨"p2", "A2", some "TypeA", some 2, 5, [], 10, none⟩,
       ⟨"p3", "B1", some "TypeB", some 3, 5, [], 10, none⟩] (-1)).length : ℤ) ≤ -1) := by
  refine ⟨by decide, by decide⟩

/-- C6 (amended): for every catalog and every `num_bundles` whatsoever,
every candidate the recommender returns contains at least 2 products (a
bucket with fewer than 2 items is skipped, and the top-up path emits exact
pairs); and whenever `num_bundles ≥ 0` the recommender returns at most
`num_bundles` candidates (for negative `num_bundles` the bound fails, see
the counterexample). -/
theorem C6_recommend_limits
    (enhance : String → List String → Int → Option (String × String))
    (ex : List String → Bool) (sid : String) (products : List ProductIn) (n : ℤ) :
    (0 ≤ n → ((recommend_bundles enhance ex sid products n).length : ℤ) ≤ n) ∧
    ∀ b ∈ recommend_bundles enhance ex sid products n, 2 ≤ b.products.length := by
  by_cases hp : products = []
  · simp only [recommend_bundles, if_pos hp]
    exact ⟨fun hn => by simpa using hn, by simp⟩
  · constructor
    · intro hn
      rcases eq_or_lt_of_le hn with hz | hpos
      · have hz' : n = 0 := hz.symm
        subst hz'
        have h0 : pyTake (max ((0 : ℤ) * 2) 0)
            (rankBuckets ((buildBuckets products).map fun gi => (gi.1, sortItems gi.2))) = [] := by
          norm_num [pyTake]
        simp only [recommend_bundles, if_neg hp, h0, recommendMainLoop]
        norm_num
      · simp only [recommend_bundles, if_neg hp]
        have hBle : ((recommendMainLoop enhance ex sid n
            (pyTake (max (n * 2) n)
              (rankBuckets ((buildBuckets products).map fun gi => (gi.1, sortItems gi.2))))
            []).length : ℤ) ≤ n :=
          recommendMainLoop_length_le enhance ex sid n _ [] (by simpa using hpos)
        split_ifs with hlt
        · exact recommendTopUp_length_le ex sid n _ _ (le_of_lt hlt)
        · exact hBle
    · simp only [recommend_bundles, if_neg hp]
      have hBmin : ∀ b ∈ recommendMainLoop enhance ex sid n
          (pyTake (max (n * 2) n)
            (rankBuckets ((buildBuckets products).map fun gi => (gi.1, sortItems gi.2))))
          [], 2 ≤ b.products.length :=
        recommendMainLoop_min2 enhance ex sid n _ [] (by simp)
      split_ifs with hlt
      · exact recommendTopUp_min2 ex sid n _ _ hBmin
      · exact hBmin

theorem C6_witness :
    (((recommend_bundles (fun _ _ _ => none) (fun _ => false) "s"
      [⟨"p1", "A1", some "TypeA", some 1, 5, [], 10, none⟩,
       ⟨"p2", "A2", some "TypeA", some 2, 5, [], 10, none⟩,
       ⟨"p3", "B1", some "TypeB", some 3, 5, [], 10, none⟩] 1).length : ℤ) ≤ 1 ∧
     ∀ b ∈ recommend_bundles (fun _ _ _ => none) (fun _ => false) "s"
      [⟨"p1", "A1", some "TypeA", some 1, 5, [], 10, none⟩,
       ⟨"p2", "A2", some "TypeA", some 2, 5, [], 10, none⟩,
       ⟨"p3", "B1", some "TypeB", some 3, 5, [], 10, none⟩] 1, 2 ≤ b.products.length) ∧
    ∀ b ∈ recommend_bundles (fun _ _ _ => none) (fun _ => false) "s"
      [⟨"p1", "A1", some "TypeA", some 1, 5, [], 10, none⟩,
       ⟨"p2", "A2", some "TypeA", some 2, 5, [], 10, none⟩,
       ⟨"p3", "B1", some "TypeB", some 3, 5, [], 10, none⟩] (-1), 2 ≤ b.products.length :=
  ⟨⟨(C6_recommend_limits (fun _ _ _ => none) (fun _ => false) "s"
      [⟨"p1", "A1", some "TypeA", some 1, 5, [], 10, none⟩,
       ⟨"p2", "A2", some "TypeA", some 2, 5, [], 10, none⟩,
       ⟨"p3", "B1", some "TypeB", some 3, 5, [], 10, none⟩] 1).1 (by decide),
    (C6_recommend_limits (fun _ _ _ => none) (fun _ => false) "s"
      [⟨"p1", "A1", some "TypeA", some 1, 5, [], 10, none⟩,
       ⟨"p2", "A2", some "TypeA", some 2, 5, [], 10, none⟩,
       ⟨"p3", "B1", some "TypeB", some 3, 5, [], 10, none⟩] 1).2⟩,
   (C6_recommend_limits (fun _ _ _ => none) (fun _ => false) "s"
      [⟨"p1", "A1", some "TypeA", some 1, 5, [], 10, none⟩,
       ⟨"p2", "A2", some "TypeA", some 2, 5, [], 10, none⟩,
       ⟨"p3", "B1", some "TypeB", some 3, 5, [], 10, none⟩] (-1)).2⟩

end Huggle
